import Mathlib

/-!
Verification development for the sgsPy raster stratification and stratified
sampling package. The Python validation pipelines in
`sgs/stratify/breaks/breaks.py`, `sgs/stratify/quantiles/quantiles.py`,
`sgs/stratify/map/map_stratifications.py` and `sgs/sample/strat/strat.py`
are embedded shallowly: Python floats are modelled as exact rationals (the
concrete inputs used in counterexamples are dyadic, so IEEE double
arithmetic on them is exact and the rational model is faithful there),
Python exceptions as an `Except` error monad, and in-place list mutation
as explicit state passing.
-/

namespace SgsPy

/-- Python exception classes that the modelled code can raise (plus
`overflowError`, which the source never raises but the spec mentions). -/
inductive PyError where
  | valueError (msg : String)
  | typeError (msg : String)
  | overflowError (msg : String)
  | zeroDivisionError (msg : String)
  | nameError (msg : String)
  | indexError (msg : String)
deriving DecidableEq, Repr

instance {ε α : Type} [DecidableEq ε] [DecidableEq α] :
    DecidableEq (Except ε α) := fun a b =>
  match a, b with
  | .ok x, .ok y =>
    if h : x = y then .isTrue (by rw [h])
    else .isFalse (fun hc => by cases hc; exact h rfl)
  | .error x, .error y =>
    if h : x = y then .isTrue (by rw [h])
    else .isFalse (fun hc => by cases hc; exact h rfl)
  | .ok _, .error _ => .isFalse (fun hc => by cases hc)
  | .error _, .ok _ => .isFalse (fun hc => by cases hc)

/-- `GIGABYTE = 1073741824` from breaks.py / map_stratifications.py. -/
def GIGABYTE : Nat := 1073741824

/-- `MAX_STRATA_VAL = 2147483647`, the 32-bit signed integer maximum. -/
def MAX_STRATA_VAL : Int := 2147483647

/-- Modelled from the spec: the per-pixel classification rule of the
`breaks_cpp` C++ extension (the extension's source is not part of the
Python package under `src/`; only its Python caller in
`sgs/stratify/breaks/breaks.py` is). The spec says the output stratum of a
pixel value is the count of breakpoints ≤ the value (right-open buckets). -/
def stratumOf (v : ℚ) (B : List ℚ) : Nat :=
  B.countP (fun b => decide (b ≤ v))

/-- Modelled from the spec: nodata pixels map to the nodata sentinel
(modelled as `none`); every other pixel is classified by `stratumOf`. -/
def classifyPixel (nodata : Option ℚ) (v : ℚ) (B : List ℚ) : Option Nat :=
  if nodata = some v then none else some (stratumOf v B)

/-- Modelled from the spec: the population count of stratum `s` counts the
pixels classified to `s`; nodata pixels are classified to `none` and hence
contribute to no stratum's population. -/
def populationCount (nodata : Option ℚ) (pixels : List ℚ) (B : List ℚ)
    (s : Nat) : Nat :=
  (pixels.filter (fun v => decide (classifyPixel nodata v B = some s))).length

lemma countP_le_eq_zero {B : List ℚ} {v : ℚ}
    (h : ∀ b ∈ B, v < b) : B.countP (fun b => decide (b ≤ v)) = 0 := by
  rw [List.countP_eq_zero]
  intro b hb
  simpa using not_le.mpr (h b hb)

lemma countP_le_eq_length {B : List ℚ} {v : ℚ}
    (h : ∀ b ∈ B, b ≤ v) : B.countP (fun b => decide (b ≤ v)) = B.length := by
  rw [List.countP_eq_length]
  intro b hb
  simpa using h b hb

lemma sorted_head_le {B : List ℚ} (hs : B.Sorted (· < ·)) (hne : B ≠ []) :
    ∀ b ∈ B, B.head hne ≤ b := by
  cases B with
  | nil => exact absurd rfl hne
  | cons x t =>
    intro b hb
    rcases List.mem_cons.mp hb with h | h
    · exact le_of_eq h.symm
    · exact le_of_lt ((List.sorted_cons.mp hs).1 b h)

lemma sorted_le_getLast {B : List ℚ} (hs : B.Sorted (· < ·)) (hne : B ≠ []) :
    ∀ b ∈ B, b ≤ B.getLast hne := by
  induction B with
  | nil => exact absurd rfl hne
  | cons x t ih =>
    intro b hb
    rcases List.sorted_cons.mp hs with ⟨hx, ht⟩
    cases t with
    | nil =>
      have : b = x := by simpa using hb
      simp [this]
    | cons y u =>
      have hlast : (x :: y :: u).getLast hne = (y :: u).getLast (by simp) :=
        List.getLast_cons (by simp)
      rw [hlast]
      rcases List.mem_cons.mp hb with h | h
      · subst h
        have hmem : (y :: u).getLast (by simp) ∈ y :: u := List.getLast_mem _
        exact le_of_lt (hx _ hmem)
      · exact ih ht (by simp) b h

lemma stratum_at_break {B : List ℚ} (hs : B.Sorted (· < ·)) :
    ∀ i : Fin B.length, stratumOf (B.get i) B = i + 1 := by
  induction B with
  | nil => exact fun i => absurd i.2 (by simp)
  | cons x t ih =>
    intro i
    rcases List.sorted_cons.mp hs with ⟨hx, ht⟩
    match i with
    | ⟨0, h0⟩ =>
      show (x :: t).countP (fun b => decide (b ≤ x)) = 1
      rw [List.countP_cons]
      have h1 : t.countP (fun b => decide (b ≤ x)) = 0 :=
        countP_le_eq_zero (fun b hb => hx b hb)
      simp [h1]
    | ⟨j + 1, hj⟩ =>
      have hjt : j < t.length := by simpa using hj
      have hget : (x :: t).get ⟨j + 1, hj⟩ = t.get ⟨j, hjt⟩ := rfl
      show (x :: t).countP (fun b => decide (b ≤ (x :: t).get ⟨j + 1, hj⟩))
          = (j + 1) + 1
      rw [hget, List.countP_cons]
      have hxle : x ≤ t.get ⟨j, hjt⟩ := le_of_lt (hx _ (t.get_mem _ _))
      have hcnt := ih ht ⟨j, hjt⟩
      unfold stratumOf at hcnt
      simp only [Fin.val_mk, List.get_eq_getElem] at hcnt
      simp only [List.get_eq_getElem] at hxle
      simp [hxle, hcnt]

/-- C1. Spec-modelled classification law for the Breakpoint Stratifier:
for a strictly increasing breakpoint list `B`, the stratum of a pixel
value is the count of breakpoints ≤ the value, so a value equal to `B[i]`
lands in stratum `i+1`, a value below `B[0]` in stratum `0`, a value at or
above the last breakpoint in stratum `len B`; a nodata pixel maps to the
nodata sentinel and contributes to no stratum's population count. -/
theorem breaks_classification (B : List ℚ) (hs : B.Sorted (· < ·)) :
    (∀ i : Fin B.length, stratumOf (B.get i) B = i + 1) ∧
    (∀ v : ℚ, ∀ hne : B ≠ [], v < B.head hne → stratumOf v B = 0) ∧
    (∀ v : ℚ, ∀ hne : B ≠ [], B.getLast hne ≤ v →
      stratumOf v B = B.length) ∧
    (∀ nd : ℚ, classifyPixel (some nd) nd B = none) ∧
    (∀ nd : ℚ, ∀ pixels : List ℚ, ∀ s : Nat,
      populationCount (some nd) (nd :: pixels) B s
        = populationCount (some nd) pixels B s) := by
  refine ⟨stratum_at_break hs, ?_, ?_, ?_, ?_⟩
  · intro v hne hv
    exact countP_le_eq_zero (fun b hb => lt_of_lt_of_le hv (sorted_head_le hs hne b hb))
  · intro v hne hv
    exact countP_le_eq_length (fun b hb => le_trans (sorted_le_getLast hs hne b hb) hv)
  · intro nd
    simp [classifyPixel]
  · intro nd pixels s
    simp [populationCount, classifyPixel]

/-- Witness for C1 at the concrete breakpoint list `[1, 3, 5]`. -/
theorem breaks_classification_witness :
    stratumOf 3 [1, 3, 5] = 2 ∧ stratumOf 0 [1, 3, 5] = 0 ∧
    stratumOf 7 [1, 3, 5] = 3 ∧
    classifyPixel (some (-1)) (-1) [1, 3, 5] = none := by
  have h := breaks_classification [1, 3, 5] (by decide)
  refine ⟨?_, ?_, ?_, h.2.2.2.1 (-1)⟩
  · exact h.1 ⟨1, by decide⟩
  · exact h.2.1 0 (by decide) (by norm_num)
  · exact h.2.2.1 7 (by decide) (by norm_num)

/-- The read-only view of a `SpatialRaster` / its C++ raster object that the
Python validation code consults: dimensions, the named bands (`rast.bands`,
with `band_name_dict` mapping a name to its position) and the per-band pixel
type size in bytes (`get_raster_band_type_size`). -/
structure CppRaster where
  height : Nat
  width : Nat
  bandNames : List String
  bandTypeSizes : List Nat
deriving DecidableEq, Repr

/-- `rast.band_count`. -/
def CppRaster.bandCount (r : CppRaster) : Nat := r.bandNames.length

/-- The three accepted shapes of the `breaks` argument of
`sgs.stratify.breaks`: a single list of numbers, a list of lists indexed by
band, or a dict keyed by band name. -/
inductive BreaksArg where
  | single (bs : List ℚ)
  | multi (bss : List (List ℚ))
  | byName (kv : List (String × List ℚ))
deriving DecidableEq, Repr

/-- The dict-shape loop of breaks.py lines 96-101: each key must be a valid
band name; the value is keyed by the band's index (`band_name_dict`). -/
def breaksDictByName (rast : CppRaster) :
    List (String × List ℚ) → Except PyError (List (Nat × List ℚ))
  | [] => .ok []
  | (k, v) :: rest =>
    if k ∈ rast.bandNames then
      (breaksDictByName rast rest).map
        (fun tail => (rast.bandNames.indexOf k, v) :: tail)
    else
      .error (.valueError
        "breaks dict key must be a valid band name (see SpatialRaster.bands for list of names)")

/-- breaks.py lines 78-101: build `breaks_dict` from the `breaks` argument,
validating its shape against the raster's bands. -/
def breaksDict (rast : CppRaster) : BreaksArg →
    Except PyError (List (Nat × List ℚ))
  | .single bs =>
    if bs.length < 1 then
      .error (.valueError "breaks list must contain at least one element.")
    else if rast.bandCount ≠ 1 then
      .error (.valueError ("if breaks is a single list, raster must have a single band (has "
        ++ toString rast.bandCount ++ ")."))
    else
      .ok [(0, bs)]
  | .multi bss =>
    if bss.length < 1 then
      .error (.valueError "breaks list must contain at least one element.")
    else if bss.length ≠ rast.bandCount then
      .error (.valueError "number of lists of breaks must be equal to the number of raster bands.")
    else
      .ok bss.enum
  | .byName kv => breaksDictByName rast kv

/-- breaks.py lines 103-110: accumulate `max_mapped_strata` over the breaks
dict, rejecting any single band whose stratum count overflows. -/
def breaksOverflowLoop : List (Nat × List ℚ) → Int → Except PyError Int
  | [], acc => .ok acc
  | (_, v) :: rest, acc =>
    let sc : Int := (v.length : Int) + 1
    if MAX_STRATA_VAL < sc then
      .error (.valueError
        "one of the breaks given will cause an integer overflow error because the max strata number is too large.")
    else breaksOverflowLoop rest (acc * sc)

/-- breaks.py lines 103-113: the overflow guard; `max_mapped_strata` starts
at `int(map)`. -/
def breaksOverflowCheck (mapFlag : Bool) (dict : List (Nat × List ℚ)) :
    Except PyError Unit := do
  let m ← breaksOverflowLoop dict (if mapFlag then 1 else 0)
  if MAX_STRATA_VAL < m then
    .error (.valueError
      "the mapped strata will cause an overflow error because the max strata number is too large.")
  else
    .ok ()

/-- breaks.py lines 129-135: the band-size loop. Accumulates
`raster_size_bytes` and breaks out early (setting `large_raster`) as soon as
a single band reaches one gigabyte. -/
def largeSizeScan : List Nat → Nat → Nat × Bool
  | [], acc => (acc, false)
  | s :: rest, acc =>
    if GIGABYTE ≤ s then (acc + s, true) else largeSizeScan rest (acc + s)

/-- The byte sizes (`height * width * pixel size`) of the bands selected by
the breaks dict, in iteration order. -/
def bandSizes (rast : CppRaster) (dict : List (Nat × List ℚ)) : List Nat :=
  dict.map (fun kv => rast.height * rast.width * rast.bandTypeSizes.getD kv.1 0)

/-- breaks.py lines 126-138: the out-of-core decision — a pure function of
the selected bands' declared byte sizes. -/
def breaksLargeRaster (rast : CppRaster) (dict : List (Nat × List ℚ)) : Bool :=
  let p := largeSizeScan (bandSizes rast dict) 0
  p.2 || decide (4 * GIGABYTE < p.1)

/-- breaks.py lines 74-153: the full validation pipeline of `breaks`, in
source order, up to the `breaks_cpp` call. On success it returns the breaks
dict and the `large_raster` flag handed to the C++ extension (the
driver-options key-type check cannot fail in this model because keys are
typed as strings). -/
def breaksRun (rast : CppRaster) (breaksArg : BreaksArg) (mapFlag : Bool)
    (thread_count : Int) :
    Except PyError (List (Nat × List ℚ) × Bool) := do
  let dict ← breaksDict rast breaksArg
  breaksOverflowCheck mapFlag dict
  if thread_count < 1 then
    .error (.valueError "number of threads can't be less than 1.")
  else
    .ok (dict, breaksLargeRaster rast dict)

lemma largeSizeScan_of_all_small {sizes : List Nat} {acc : Nat}
    (h : ∀ s ∈ sizes, s < GIGABYTE) :
    largeSizeScan sizes acc = (acc + sizes.sum, false) := by
  induction sizes generalizing acc with
  | nil => simp [largeSizeScan]
  | cons s rest ih =>
    have hs : ¬ GIGABYTE ≤ s := not_le.mpr (h s (by simp))
    rw [largeSizeScan, if_neg hs, ih (fun x hx => h x (by simp [hx]))]
    simp [List.sum_cons]
    omega

lemma largeSizeScan_snd_iff {sizes : List Nat} {acc : Nat} :
    (largeSizeScan sizes acc).2 = true ↔ ∃ s ∈ sizes, GIGABYTE ≤ s := by
  induction sizes generalizing acc with
  | nil => simp [largeSizeScan]
  | cons s rest ih =>
    by_cases hs : GIGABYTE ≤ s
    · simp [largeSizeScan, hs]
    · simp [largeSizeScan, hs, ih]

/-- C6 (amended). The out-of-core decision of `breaks` is a pure function of
the selected bands' declared byte sizes: row-block processing is selected
iff some single band's byte size is at least 1 GiB, or the sum of the
selected bands' byte sizes is *strictly greater than* 4 GiB (the source
compares the sum with `>`: a sum of exactly 4 GiB does not trigger
out-of-core processing). -/
theorem breaks_out_of_core (rast : CppRaster) (dict : List (Nat × List ℚ)) :
    breaksLargeRaster rast dict = true ↔
      (∃ s ∈ bandSizes rast dict, GIGABYTE ≤ s) ∨
        4 * GIGABYTE < (bandSizes rast dict).sum := by
  unfold breaksLargeRaster
  by_cases h : ∃ s ∈ bandSizes rast dict, GIGABYTE ≤ s
  · have h2 : (largeSizeScan (bandSizes rast dict) 0).2 = true :=
      largeSizeScan_snd_iff.mpr h
    simp [h2, h]
  · push_neg at h
    have h3 : ∀ s ∈ bandSizes rast dict, s < GIGABYTE := h
    rw [largeSizeScan_of_all_small h3]
    simp only [Nat.zero_add]
    constructor
    · intro hb
      right
      simpa using hb
    · intro hb
      rcases hb with hb | hb
      · rcases hb with ⟨s, hs, hges⟩
        exact absurd hges (not_le.mpr (h3 s hs))
      · simpa using hb

/-- Counterexample to C6 as stated: eight selected bands of 512 MiB each
(16384 × 16384 pixels, 2 bytes per pixel) sum to exactly 4 GiB — "at least
4 GiB" in the claim — yet `breaks` selects in-memory processing, because the
source compares the sum strictly (`raster_size_bytes > GIGABYTE * 4`). -/
theorem breaks_out_of_core_cex :
    breaksLargeRaster
        ⟨16384, 16384, ["a", "b", "c", "d", "e", "f", "g", "h"],
          [2, 2, 2, 2, 2, 2, 2, 2]⟩
        [(0, []), (1, []), (2, []), (3, []), (4, []), (5, []), (6, []), (7, [])]
      = false ∧
    (bandSizes
        ⟨16384, 16384, ["a", "b", "c", "d", "e", "f", "g", "h"],
          [2, 2, 2, 2, 2, 2, 2, 2]⟩
        [(0, []), (1, []), (2, []), (3, []), (4, []), (5, []), (6, []), (7, [])]).sum
      = 4 * GIGABYTE := by
  constructor
  · rfl
  · rfl

/-- C5 (amended). `breaks` raises a validation error when the number of
breakpoint lists does not match the number of bands (list-of-lists shape),
when a single list is given for a multi-band raster, when a named band does
not exist, or when the top-level `breaks` list is empty — but an empty
per-band breakpoint list inside the list-of-lists shape is *not* rejected:
a list-of-lists of the right length validates regardless of the contents of
its inner lists. -/
theorem breaks_validation_errors (rast : CppRaster) :
    (∀ bss : List (List ℚ), bss ≠ [] → bss.length ≠ rast.bandCount →
      breaksDict rast (.multi bss) = .error (.valueError
        "number of lists of breaks must be equal to the number of raster bands.")) ∧
    (∀ bs : List ℚ, bs ≠ [] → rast.bandCount ≠ 1 →
      breaksDict rast (.single bs) = .error (.valueError
        ("if breaks is a single list, raster must have a single band (has "
          ++ toString rast.bandCount ++ ")."))) ∧
    (∀ kv : List (String × List ℚ), (∃ p ∈ kv, p.1 ∉ rast.bandNames) →
      breaksDict rast (.byName kv) = .error (.valueError
        "breaks dict key must be a valid band name (see SpatialRaster.bands for list of names)")) ∧
    (breaksDict rast (.single []) = .error (.valueError
      "breaks list must contain at least one element.")) ∧
    (breaksDict rast (.multi []) = .error (.valueError
      "breaks list must contain at least one element.")) ∧
    (∀ bss : List (List ℚ), bss ≠ [] → bss.length = rast.bandCount →
      breaksDict rast (.multi bss) = .ok bss.enum) := by
  refine ⟨?_, ?_, ?_, by simp [breaksDict], by simp [breaksDict], ?_⟩
  · intro bss hne hlen
    have hpos : ¬ bss.length < 1 := by
      simpa [Nat.lt_one_iff] using (List.length_pos.mpr hne).ne'
    simp [breaksDict, hpos, hlen]
  · intro bs hne hbc
    have hpos : ¬ bs.length < 1 := by
      simpa [Nat.lt_one_iff] using (List.length_pos.mpr hne).ne'
    simp [breaksDict, hpos, hbc]
  · intro kv hbad
    induction kv with
    | nil => simp at hbad
    | cons p rest ih =>
      by_cases hk : p.1 ∈ rast.bandNames
      · rcases hbad with ⟨q, hq, hnq⟩
        rcases List.mem_cons.mp hq with h | h
        · exact absurd hk (h ▸ hnq)
        · have := ih ⟨q, h, hnq⟩
          simp only [breaksDict] at this ⊢
          cases p with
          | mk k v =>
            simp only at hk
            rw [breaksDictByName, if_pos hk, this]
            rfl
      · cases p with
        | mk k v =>
          simp only at hk
          simp [breaksDict, breaksDictByName, hk]
  · intro bss hne hlen
    have hpos : 0 < bss.length := List.length_pos.mpr hne
    simp [breaksDict, hlen]
    omega

/-- Witness for C5 on a single-band raster named `b`: a two-list breaks
argument, a single list on a two-band raster, an unknown dict key, and the
empty top-level list all raise; a right-length list-of-lists validates. -/
theorem breaks_validation_errors_witness :
    breaksDict ⟨1, 1, ["b"], [1]⟩ (.multi [[1], [2]]) = .error (.valueError
      "number of lists of breaks must be equal to the number of raster bands.") ∧
    breaksDict ⟨1, 1, ["b", "c"], [1, 1]⟩ (.single [1]) = .error (.valueError
      "if breaks is a single list, raster must have a single band (has 2).") ∧
    breaksDict ⟨1, 1, ["b"], [1]⟩ (.byName [("x", [1])]) = .error (.valueError
      "breaks dict key must be a valid band name (see SpatialRaster.bands for list of names)") ∧
    breaksDict ⟨1, 1, ["b"], [1]⟩ (.multi [[3]]) = .ok [(0, [3])] := by
  have h1 := breaks_validation_errors ⟨1, 1, ["b"], [1]⟩
  have h2 := breaks_validation_errors ⟨1, 1, ["b", "c"], [1, 1]⟩
  refine ⟨h1.1 [[1], [2]] (by decide) (by decide), ?_, ?_, ?_⟩
  · exact h2.2.1 [1] (by decide) (by decide)
  · exact h1.2.2.1 [("x", [1])] ⟨("x", [1]), by simp, by simp [CppRaster.bandNames]⟩
  · exact h1.2.2.2.2.2 [[3]] (by decide) (by decide)

/-- Counterexample to C5 as stated: an empty breakpoint list supplied for
the (single) selected band in the list-of-lists shape is not rejected — the
whole `breaks` validation pipeline succeeds and proceeds to classification
with an empty breakpoint list. -/
theorem breaks_empty_inner_cex :
    breaksRun ⟨1, 1, ["b"], [1]⟩ (.multi [[]]) false 8
      = .ok ([(0, [])], false) := by rfl

/-- A band selector: a 0-indexed integer or a band name (exception messages
are reproduced without quote characters). -/
inductive Band where
  | idx (i : Int)
  | name (s : String)
deriving DecidableEq, Repr

/-- The read-only view of the access `SpatialVector` that strat.py consults:
its layer names. -/
structure AccessVec where
  layers : List String
deriving DecidableEq, Repr

/-- The arguments of `sgs.sample.strat` that participate in validation
(`existing`, `force`, `plot` and `filename` are never validated and are
omitted). -/
structure StratArgs where
  strat_rast : CppRaster
  band : Band
  num_samples : Int
  num_strata : Int
  wrow : Int
  wcol : Int
  allocation : String
  weights : Option (List ℚ)
  mrast : Option CppRaster
  mrast_band : Option Band
  method : String
  mindist : Option ℚ
  access : Option AccessVec
  layer_name : Option String
  buff_inner : Option ℚ
  buff_outer : Option ℚ
deriving DecidableEq, Repr

/-- The resolved parameters strat.py hands to `strat_cpp`. -/
structure StratCall where
  band : Int
  weights : List ℚ
  mrast_band : Int
  layer_name : String
  buff_inner : ℚ
  buff_outer : ℚ
  mindist : ℚ
deriving DecidableEq, Repr

/-- strat.py lines 124-133: resolve the `band` argument. For an
out-of-range integer band the source formats its message through the
undefined name `raster`, so that path raises a NameError rather than the
intended ValueError. -/
def stratBandCheck (a : StratArgs) : Except PyError Int :=
  match a.band with
  | .name s =>
    if s ∈ a.strat_rast.bandNames then
      .ok (a.strat_rast.bandNames.indexOf s : Int)
    else
      .error (.valueError ("band " ++ s ++ " not in given raster."))
  | .idx i =>
    if (a.strat_rast.bandNames.length : Int) ≤ i then
      .error (.nameError "name raster is not defined")
    else
      .ok i

/-- strat.py lines 135-136. -/
def stratNumSamplesCheck (a : StratArgs) : Except PyError Unit :=
  if a.num_samples < 1 then
    .error (.valueError "num_samples must be greater than 0")
  else .ok ()

/-- strat.py lines 138-139. -/
def stratMethodCheck (a : StratArgs) : Except PyError Unit :=
  if a.method ∈ ["random", "Queinnec"] then .ok ()
  else .error (.valueError "method must be either random or Queinnec.")

/-- strat.py lines 141-142. -/
def stratAllocCheck (a : StratArgs) : Except PyError Unit :=
  if a.allocation ∈ ["prop", "optim", "equal", "manual"] then .ok ()
  else .error (.valueError "method must be one of prop, optim, equal, or manual.")

/-- strat.py lines 144-152: the manual-allocation checks, in source order:
missing weights, then `np.sum(weights) != 1` (an exact floating-point
comparison, modelled as exact rational equality), then the length check. -/
def manualCheck (weights : Option (List ℚ)) (num_strata : Int) :
    Except PyError Unit :=
  match weights with
  | none => .error (.valueError "for manual allocation, weights must be given.")
  | some ws =>
    if ws.sum ≠ 1 then
      .error (.valueError "weights must sum to 1.")
    else if (ws.length : Int) ≠ num_strata then
      .error (.valueError "length of weights must be the same as the number of strata.")
    else .ok ()

/-- strat.py line 144: the manual checks run only for `allocation == "manual"`. -/
def stratManualGate (a : StratArgs) : Except PyError Unit :=
  if a.allocation = "manual" then manualCheck a.weights a.num_strata else .ok ()

/-- strat.py lines 154-177: the optim-allocation checks. When `mrast_band`
is a string the source tests the already-resolved integer `band` for
membership in `mrast.bands` (a list of strings), which never holds, so that
branch always fails. -/
def stratOptimCheck (a : StratArgs) (band : Int) : Except PyError Int :=
  if a.allocation = "optim" then
    match a.mrast with
    | none => .error (.valueError
        "the mrast parameter must be provided if a SpatialRaster if allocation is optim.")
    | some mr =>
      match a.mrast_band with
      | none =>
        if mr.bandCount ≠ 1 then
          .error (.valueError
            "the mrast_band parameter must be given if the mrast SpatialRaster contains more than 1 band.")
        else .ok 1
      | some (.name _) =>
        .error (.valueError ("band " ++ toString band ++ " not in mraster."))
      | some (.idx i) =>
        if (mr.bandCount : Int) ≤ i then
          .error (.valueError ("0-indexed band of " ++ toString band
            ++ "given, but raster only has " ++ toString mr.bandCount ++ " bands."))
        else .ok i
  else .ok (-1)

/-- strat.py lines 179-183. -/
def stratWindowCheck (a : StratArgs) : Except PyError Unit :=
  if a.wrow ∈ [(3 : Int), 5, 7] then
    if a.wcol ∈ [(3 : Int), 5, 7] then .ok ()
    else .error (.valueError "wcol must be one of 3, 5, 7.")
  else .error (.valueError "wrow must be one of 3, 5, 7.")

/-- strat.py lines 194-195: a missing or negative inner buffer is silently
clamped to 0. -/
def clampInner (buff_inner : Option ℚ) : ℚ :=
  match buff_inner with
  | none => 0
  | some x => if x < 0 then 0 else x

/-- strat.py lines 194-201: inner-buffer clamping followed by the outer
buffer checks (`buff_outer` missing or ≤ 0, then `buff_inner >= buff_outer`). -/
def accessBuffers (buff_inner buff_outer : Option ℚ) :
    Except PyError (ℚ × ℚ) :=
  let bi := clampInner buff_inner
  match buff_outer with
  | none => .error (.valueError
      "if an access vector is given, buff_outer must be a float greater than 0.")
  | some bo =>
    if bo ≤ 0 then
      .error (.valueError
        "if an access vector is given, buff_outer must be a float greater than 0.")
    else if bo ≤ bi then
      .error (.valueError "buff_outer must be greater than buff_inner")
    else .ok (bi, bo)

/-- strat.py lines 185-208: the access-vector checks; without an access
vector the layer name defaults to the empty string and both buffers to -1. -/
def stratLayerName (a : StratArgs) (av : AccessVec) : Except PyError String :=
  match a.layer_name with
  | none =>
    if 1 < av.layers.length then
      .error (.valueError
        "if there are multiple layers in the access vector, layer_name must be defined.")
    else
      match av.layers with
      | [] => .error (.indexError "list index out of range")
      | l0 :: _ => .ok l0
  | some ln => .ok ln

def stratAccessCheck (a : StratArgs) : Except PyError (String × ℚ × ℚ) :=
  match a.access with
  | none => .ok ("", -1, -1)
  | some av =>
    (stratLayerName a av).bind
      (fun ln =>
        if ln ∈ av.layers then
          (accessBuffers a.buff_inner a.buff_outer).map (fun p => (ln, p.1, p.2))
        else
          .error (.valueError
            "layer specified by layer_name does not exist in the access vector"))

/-- strat.py lines 218-222: `mindist` defaults to 0 and must be ≥ 0. -/
def stratMindistCheck (a : StratArgs) : Except PyError ℚ :=
  let md := a.mindist.getD 0
  if md < 0 then
    .error (.valueError "mindist must be greater than or equal to 0")
  else .ok md

/-- strat.py lines 224-225: the stratum raster must have exactly one band. -/
def stratSingleBandCheck (a : StratArgs) : Except PyError Unit :=
  if a.strat_rast.bandCount ≠ 1 then
    .error (.valueError "strat_raster must have a single band.")
  else .ok ()

/-- strat.py lines 124-230: the whole validation pipeline of `strat`, in
source order, up to the `strat_cpp` call (line 215 resets `weights` to the
empty list for non-manual allocations). -/
def stratValidate (a : StratArgs) : Except PyError StratCall := do
  let band ← stratBandCheck a
  stratNumSamplesCheck a
  stratMethodCheck a
  stratAllocCheck a
  stratManualGate a
  let mb ← stratOptimCheck a band
  stratWindowCheck a
  let acc ← stratAccessCheck a
  let md ← stratMindistCheck a
  stratSingleBandCheck a
  .ok ⟨band, (if a.allocation = "manual" then a.weights.getD [] else []),
    mb, acc.1, acc.2.1, acc.2.2, md⟩

/-- strat.py line 257: the diagnostic printed on a shortfall, reporting both
the requested and the achieved count. -/
def shortfallMsg (requested found : Int) : String :=
  "unable to find the full " ++ toString requested
    ++ " samples within the given constraints. Sampled "
    ++ toString found ++ " points."

/-- strat.py lines 232-276: run validation, then the sampler (`strat_cpp`,
abstracted as `cpp`), then the shortfall diagnostic; the result is returned
normally in every post-validation path. -/
def stratRun {α : Type} (a : StratArgs) (cpp : StratCall → Int × α) :
    Except PyError (List String × α) :=
  (stratValidate a).map (fun c =>
    let r := cpp c
    (if r.1 < a.num_samples then [shortfallMsg a.num_samples r.1] else [], r.2))

lemma except_bind_ok {α β : Type} {x : Except PyError α}
    {f : α → Except PyError β} {b : β}
    (h : x >>= f = .ok b) : ∃ a, x = .ok a ∧ f a = .ok b := by
  cases x with
  | error e => simp [Bind.bind, Except.bind] at h
  | ok a => exact ⟨a, rfl, by simpa [Bind.bind, Except.bind] using h⟩

/-- C3 (amended). With `allocation = "manual"`, validation passes the
weights checks iff weights are supplied, their (floating-point, here exact
rational) sum is *exactly* 1, and their length equals `num_strata`. The
source compares `np.sum(weights) != 1` exactly: there is no 1e-9 tolerance,
so a sum differing from 1 by any nonzero amount — however small — is
rejected. -/
theorem strat_manual_weights (w : Option (List ℚ)) (n : Int) :
    manualCheck w n = .ok () ↔
      ∃ ws, w = some ws ∧ ws.sum = 1 ∧ (ws.length : Int) = n := by
  cases w with
  | none => simp [manualCheck]
  | some ws =>
    by_cases hsum : ws.sum = 1
    · by_cases hlen : (ws.length : Int) = n
      · simp [manualCheck, hsum, hlen]
      · simp [manualCheck, hsum, hlen]
    · simp [manualCheck, hsum]

/-- Concrete arguments for the C3 counterexample: a manual allocation over
3 strata whose weights are dyadic rationals (so IEEE double summation is
exact) summing to `1 - 2⁻³⁰`, which differs from 1 by less than 1e-9. -/
def c3args : StratArgs :=
  { strat_rast := ⟨1, 1, ["s"], [4]⟩
    band := .name "s"
    num_samples := 5
    num_strata := 3
    wrow := 3
    wcol := 3
    allocation := "manual"
    weights := some [1/2, 1/4, 1/4 - 1/1073741824]
    mrast := none
    mrast_band := none
    method := "random"
    mindist := none
    access := none
    layer_name := none
    buff_inner := none
    buff_outer := none }

/-- Counterexample to C3 as stated: weights whose floating-point sum
differs from 1 by `2⁻³⁰ < 1e-9` are *rejected* by `strat`, not accepted —
the source has no tolerance. -/
theorem strat_manual_tolerance_cex :
    stratValidate c3args = .error (.valueError "weights must sum to 1.") ∧
    |([1/2, 1/4, 1/4 - 1/1073741824] : List ℚ).sum - 1| < 1/1000000000 := by
  have hsum : ([1/2, 1/4, 1/4 - 1/1073741824] : List ℚ).sum
      = 1 - 1/1073741824 := by
    simp [List.sum_cons, List.sum_nil]
    norm_num
  constructor
  · have h5 : stratManualGate c3args
        = .error (.valueError "weights must sum to 1.") := by
      simp [stratManualGate, c3args, manualCheck]
      norm_num
    unfold stratValidate
    rw [show stratBandCheck c3args = .ok 0 from rfl]
    simp only [Bind.bind, Except.bind]
    rw [show stratNumSamplesCheck c3args = .ok () from rfl]
    simp only [Bind.bind, Except.bind]
    rw [show stratMethodCheck c3args = .ok () from rfl]
    simp only [Bind.bind, Except.bind]
    rw [show stratAllocCheck c3args = .ok () from rfl]
    simp only [Bind.bind, Except.bind]
    rw [h5]
  · rw [hsum]
    rw [show (1 : ℚ) - 1/1073741824 - 1 = -(1/1073741824) by ring]
    rw [abs_neg, abs_of_pos (by norm_num)]
    norm_num

/-- C7. A shortfall is not an error: whenever validation succeeds and the
sampler finds fewer points than requested, `strat` emits the diagnostic
message reporting both the requested and the achieved counts and still
returns the sample result normally — no exception is raised. -/
theorem strat_shortfall_not_error {α : Type} (a : StratArgs)
    (cpp : StratCall → Int × α) (c : StratCall) (np : Int) (s : α)
    (hv : stratValidate a = .ok c) (hc : cpp c = (np, s))
    (hs : np < a.num_samples) :
    stratRun a cpp = .ok ([shortfallMsg a.num_samples np], s) := by
  simp [stratRun, hv, Except.map, hc, hs]

/-- Concrete single-band arguments that pass the whole strat validation. -/
def c7args : StratArgs :=
  { strat_rast := ⟨10, 10, ["s"], [4]⟩
    band := .name "s"
    num_samples := 5
    num_strata := 4
    wrow := 3
    wcol := 3
    allocation := "prop"
    weights := none
    mrast := none
    mrast_band := none
    method := "Queinnec"
    mindist := none
    access := none
    layer_name := none
    buff_inner := none
    buff_outer := none }

/-- Witness for C7: a sampler that finds only 3 of the 5 requested points
yields a normal result carrying the diagnostic. -/
theorem strat_shortfall_not_error_witness :
    stratRun c7args (fun _ => (3, (0 : Nat)))
      = .ok ([shortfallMsg 5 3], 0) :=
  strat_shortfall_not_error c7args (fun _ => (3, (0 : Nat)))
    ⟨0, [], -1, "", -1, -1, 0⟩ 3 0 rfl rfl (by decide)

/-- C8. `strat` only ever samples single-band stratum rasters: with more
than one band no argument vector passes validation, and when every check
before line 224 succeeds (in particular when `band` names a band that does
exist in the raster) the error raised is exactly
`ValueError("strat_raster must have a single band.")`. -/
theorem strat_single_band_required (a : StratArgs)
    (hcount : 1 < a.strat_rast.bandCount) :
    (∀ c, stratValidate a ≠ .ok c) ∧
    (∀ s, a.band = .name s → s ∈ a.strat_rast.bandNames →
      1 ≤ a.num_samples → a.method = "Queinnec" → a.allocation = "prop" →
      a.wrow = 3 → a.wcol = 3 → a.access = none →
      a.mindist = none →
      stratValidate a = .error (.valueError "strat_raster must have a single band.")) := by
  constructor
  · intro c h
    unfold stratValidate at h
    obtain ⟨band, _, h⟩ := except_bind_ok h
    obtain ⟨_, _, h⟩ := except_bind_ok h
    obtain ⟨_, _, h⟩ := except_bind_ok h
    obtain ⟨_, _, h⟩ := except_bind_ok h
    obtain ⟨_, _, h⟩ := except_bind_ok h
    obtain ⟨mb, _, h⟩ := except_bind_ok h
    obtain ⟨_, _, h⟩ := except_bind_ok h
    obtain ⟨acc, _, h⟩ := except_bind_ok h
    obtain ⟨md, _, h⟩ := except_bind_ok h
    obtain ⟨u, hu, _⟩ := except_bind_ok h
    unfold stratSingleBandCheck at hu
    rw [if_pos (by omega)] at hu
    exact Except.noConfusion hu
  · intro s hband hmem hns hmethod halloc hrow hcol hacc hmind
    have h1 : stratBandCheck a = .ok (a.strat_rast.bandNames.indexOf s : Int) := by
      simp [stratBandCheck, hband, hmem]
    have h2 : stratNumSamplesCheck a = .ok () := by
      simp [stratNumSamplesCheck]
      omega
    have h3 : stratMethodCheck a = .ok () := by
      simp [stratMethodCheck, hmethod]
    have h4 : stratAllocCheck a = .ok () := by
      simp [stratAllocCheck, halloc]
    have h5 : stratManualGate a = .ok () := by
      simp [stratManualGate, halloc]
    have h6 : ∀ b, stratOptimCheck a b = .ok (-1) := by
      intro b
      simp [stratOptimCheck, halloc]
    have h7 : stratWindowCheck a = .ok () := by
      simp [stratWindowCheck, hrow, hcol]
    have h8 : stratAccessCheck a = .ok ("", -1, -1) := by
      simp [stratAccessCheck, hacc]
    have h9 : stratMindistCheck a = .ok 0 := by
      simp [stratMindistCheck, hmind]
    have h10 : stratSingleBandCheck a
        = .error (.valueError "strat_raster must have a single band.") := by
      unfold stratSingleBandCheck
      rw [if_pos (by omega)]
    unfold stratValidate
    rw [h1]
    simp only [Bind.bind, Except.bind]
    rw [h2]
    simp only [Bind.bind, Except.bind]
    rw [h3]
    simp only [Bind.bind, Except.bind]
    rw [h4]
    simp only [Bind.bind, Except.bind]
    rw [h5]
    simp only [Bind.bind, Except.bind]
    rw [h6]
    simp only [Bind.bind, Except.bind]
    rw [h7]
    simp only [Bind.bind, Except.bind]
    rw [h8]
    simp only [Bind.bind, Except.bind]
    rw [h9]
    simp only [Bind.bind, Except.bind]
    rw [h10]

/-- Concrete two-band arguments for C8 whose `band` argument names a band
that does exist in the raster. -/
def c8args : StratArgs :=
  { strat_rast := ⟨10, 10, ["s", "t"], [4, 4]⟩
    band := .name "s"
    num_samples := 5
    num_strata := 4
    wrow := 3
    wcol := 3
    allocation := "prop"
    weights := none
    mrast := none
    mrast_band := none
    method := "Queinnec"
    mindist := none
    access := none
    layer_name := none
    buff_inner := none
    buff_outer := none }

/-- Witness for C8: a raster with two bands, a valid band name — the call
still fails with the single-band ValueError. -/
theorem strat_single_band_required_witness :
    stratValidate c8args
      = .error (.valueError "strat_raster must have a single band.") :=
  (strat_single_band_required c8args (by decide)).2 "s" rfl (by decide)
    (by decide) rfl rfl rfl rfl rfl rfl

/-- C10. With an access vector supplied: a missing or negative
`buff_inner` is silently clamped to 0 (no error is raised for a negative
inner buffer), while a missing `buff_outer`, a non-positive `buff_outer`,
or a `buff_outer` not strictly greater than the clamped `buff_inner`
raises a ValueError; and any validation error aborts `strat` before the
sampler is invoked. -/
theorem strat_access_buffer_rules (inner : Option ℚ)
    (hneg : clampInner inner = 0) :
    (∀ bo : ℚ, 0 < bo → accessBuffers inner (some bo) = .ok (0, bo)) ∧
    (∃ m, accessBuffers inner none = .error (.valueError m)) ∧
    (∀ bo : ℚ, bo ≤ 0 → ∃ m, accessBuffers inner (some bo) = .error (.valueError m)) ∧
    (∀ inner2 : Option ℚ, ∀ bo : ℚ, 0 < bo → bo ≤ clampInner inner2 →
      accessBuffers inner2 (some bo)
        = .error (.valueError "buff_outer must be greater than buff_inner")) ∧
    (∀ (a : StratArgs) (e : PyError), stratValidate a = .error e →
      ∀ cpp : StratCall → Int × Nat, stratRun a cpp = .error e) := by
    refine ⟨?_, ⟨_, rfl⟩, ?_, ?_, ?_⟩
    · intro bo hbo
      simp [accessBuffers, hneg, not_le.mpr hbo, hbo]
    · intro bo hbo
      exact ⟨"if an access vector is given, buff_outer must be a float greater than 0.",
        by simp [accessBuffers, hbo]⟩
    · intro inner2 bo hbo hle
      simp [accessBuffers, not_le.mpr hbo, hle]
    · intro a e he cpp
      simp [stratRun, he, Except.map]

/-- Witness for C10: `buff_inner = -5` is clamped to 0 and accepted with
`buff_outer = 10`; a zero outer buffer and an outer buffer below the inner
one are rejected. -/
theorem strat_access_buffer_rules_witness :
    accessBuffers (some (-5)) (some 10) = .ok (0, 10) ∧
    (∃ m, accessBuffers (some (-5)) (some 0) = .error (.valueError m)) ∧
    accessBuffers (some 7) (some 3)
      = .error (.valueError "buff_outer must be greater than buff_inner") := by
  have h := strat_access_buffer_rules (some (-5)) (by norm_num [clampInner])
  exact ⟨h.1 10 (by norm_num), h.2.2.1 0 (by norm_num),
    h.2.2.2.1 (some 7) 3 (by norm_num) (by norm_num [clampInner])⟩

/-- Python `min` over a nonempty list (raises on an empty one). -/
def pyMin : List ℚ → Except PyError ℚ
  | [] => .error (.valueError "min arg is an empty sequence")
  | x :: xs => .ok (xs.foldl min x)

/-- Python `max` over a nonempty list (raises on an empty one). -/
def pyMax : List ℚ → Except PyError ℚ
  | [] => .error (.valueError "max arg is an empty sequence")
  | x :: xs => .ok (xs.foldl max x)

/-- quantiles.py lines 103-104: an integer specification `K` yields
`np.array(range(1, K)) / K`; line 103 divides by `num_strata` first, so
`K = 0` raises a ZeroDivisionError. -/
def intProbs (k : Int) : Except PyError (List ℚ) :=
  if k = 0 then .error (.zeroDivisionError "division by zero")
  else .ok ((List.range' 1 (k - 1).toNat).map (fun i : Nat => (i : ℚ) / (k : ℚ)))

/-- quantiles.py lines 112-122: validate an explicit probability list
(`min < 0`, then `max > 1`), then drop one occurrence of `0.0` and one of
`1.0` via `list.remove` (which removes only the first occurrence). -/
def floatProbs (ps : List ℚ) : Except PyError (List ℚ) := do
  let mn ← pyMin ps
  if mn < 0 then
    .error (.valueError "list[float] must not contain a value less than 0")
  else do
    let mx ← pyMax ps
    if 1 < mx then
      .error (.valueError "list[float] must not contain a value greater than 1")
    else
      .ok ((ps.erase 0).erase 1)

/-- quantiles.py lines 93-122, single-band list-of-floats call: the first
component is the `probabilities_dict` result, the second the value of the
*caller's* list object after the call — `probabilities_dict[0]` aliases the
argument, so the `remove` calls mutate it in place (every other argument of
`quantiles` is only read). -/
def quantilesFloatsCall (band_count : Nat) (ps : List ℚ) :
    Except PyError (List (Nat × List ℚ)) × List ℚ :=
  if ps.length < 1 then
    (.error (.valueError "num_strata list must contain at least one element"), ps)
  else if band_count ≠ 1 then
    (.error (.valueError
      ("num_strata list[float] type is for a single raster band, but the raster has "
        ++ toString band_count)), ps)
  else
    match floatProbs ps with
    | .error e => (.error e, ps)
    | .ok l => (.ok [(0, l)], l)

lemma foldl_min_le_init (xs : List ℚ) (a : ℚ) : xs.foldl min a ≤ a := by
  induction xs generalizing a with
  | nil => simp
  | cons z zs ih =>
    calc zs.foldl min (min a z) ≤ min a z := ih _
      _ ≤ a := min_le_left _ _

lemma init_le_foldl_max (xs : List ℚ) (a : ℚ) : a ≤ xs.foldl max a := by
  induction xs generalizing a with
  | nil => simp
  | cons z zs ih =>
    calc a ≤ max a z := le_max_left _ _
      _ ≤ zs.foldl max (max a z) := ih _

lemma foldl_min_le {xs : List ℚ} {x y : ℚ} (h : y ∈ x :: xs) :
    xs.foldl min x ≤ y := by
  induction xs generalizing x with
  | nil =>
    have : y = x := by simpa using h
    simp [this]
  | cons z zs ih =>
    have hinit := foldl_min_le_init zs (min x z)
    rcases List.mem_cons.mp h with h | h
    · subst h
      exact le_trans hinit (min_le_left _ _)
    · rcases List.mem_cons.mp h with h | h
      · subst h
        exact le_trans hinit (min_le_right _ _)
      · exact ih (List.mem_cons_of_mem _ h)

lemma le_foldl_max {xs : List ℚ} {x y : ℚ} (h : y ∈ x :: xs) :
    y ≤ xs.foldl max x := by
  induction xs generalizing x with
  | nil =>
    have : y = x := by simpa using h
    simp [this]
  | cons z zs ih =>
    have hinit := init_le_foldl_max zs (max x z)
    rcases List.mem_cons.mp h with h | h
    · subst h
      exact le_trans (le_max_left _ _) hinit
    · rcases List.mem_cons.mp h with h | h
      · subst h
        exact le_trans (le_max_right _ _) hinit
      · exact ih (List.mem_cons_of_mem _ h)

lemma foldl_min_mem (xs : List ℚ) (x : ℚ) : xs.foldl min x ∈ x :: xs := by
  induction xs generalizing x with
  | nil => simp
  | cons z zs ih =>
    have h := ih (min x z)
    rcases List.mem_cons.mp h with h | h
    · rcases min_choice x z with hm | hm <;> rw [List.foldl_cons, h, hm] <;> simp
    · simp [List.foldl_cons, List.mem_cons_of_mem, h]

lemma foldl_max_mem (xs : List ℚ) (x : ℚ) : xs.foldl max x ∈ x :: xs := by
  induction xs generalizing x with
  | nil => simp
  | cons z zs ih =>
    have h := ih (max x z)
    rcases List.mem_cons.mp h with h | h
    · rcases max_choice x z with hm | hm <;> rw [List.foldl_cons, h, hm] <;> simp
    · simp [List.foldl_cons, List.mem_cons_of_mem, h]

lemma floatProbs_ok {ps : List ℚ} (hne : ps ≠ [])
    (hlo : ∀ x ∈ ps, 0 ≤ x) (hhi : ∀ x ∈ ps, x ≤ 1) :
    floatProbs ps = .ok ((ps.erase 0).erase 1) := by
  cases ps with
  | nil => exact absurd rfl hne
  | cons x xs =>
    have hmin : ¬ (xs.foldl min x < 0) :=
      not_lt.mpr (hlo _ (foldl_min_mem xs x))
    have hmax : ¬ (1 < xs.foldl max x) :=
      not_lt.mpr (hhi _ (foldl_max_mem xs x))
    simp only [floatProbs, pyMin, pyMax, Bind.bind, Except.bind]
    rw [if_neg hmin, if_neg hmax]

/-- C4 (amended). Quantile specifications: an integer `K ≥ 1` yields
exactly the `K−1` equally spaced probabilities `1/K … (K−1)/K`; an explicit
probability list containing a value below 0 or above 1 raises a validation
error; and *one* occurrence of `0.0` and one of `1.0` (not every
occurrence — `list.remove` drops only the first) is discarded before
breakpoints are derived, so a duplicated endpoint survives. -/
theorem quantiles_probabilities :
    (∀ k : Int, 1 ≤ k → ∃ l, intProbs k = .ok l ∧ (l.length : Int) = k - 1 ∧
      (∀ q : ℚ, q ∈ l ↔ ∃ j : Int, 1 ≤ j ∧ j ≤ k - 1 ∧ q = (j : ℚ) / (k : ℚ))) ∧
    (∀ ps : List ℚ, (∃ x ∈ ps, x < 0) →
      floatProbs ps = .error (.valueError
        "list[float] must not contain a value less than 0")) ∧
    (∀ ps : List ℚ, (∀ x ∈ ps, 0 ≤ x) → (∃ x ∈ ps, 1 < x) →
      floatProbs ps = .error (.valueError
        "list[float] must not contain a value greater than 1")) ∧
    (∀ ps l, floatProbs ps = .ok l → l = (ps.erase 0).erase 1 ∧
      (ps.count 0 ≤ 1 → (0 : ℚ) ∉ l) ∧ (ps.count 1 ≤ 1 → (1 : ℚ) ∉ l)) := by
  refine ⟨?_, ?_, ?_, ?_⟩
  · intro k hk
    refine ⟨_, by rw [intProbs, if_neg (by omega)], ?_, ?_⟩
    · rw [List.length_map, List.length_range']
      omega
    · intro q
      rw [List.mem_map]
      constructor
      · rintro ⟨i, hi, rfl⟩
        rw [List.mem_range'_1] at hi
        refine ⟨(i : Int), by omega, by omega, ?_⟩
        norm_num
      · rintro ⟨j, hj1, hj2, rfl⟩
        refine ⟨j.toNat, ?_, ?_⟩
        · rw [List.mem_range'_1]
          omega
        · have hc : ((j.toNat : ℚ)) = (j : ℚ) := by
            exact_mod_cast congrArg (fun t : Int => (t : ℚ))
              (Int.toNat_of_nonneg (by omega))
          rw [hc]
  · intro ps hx
    rcases hx with ⟨x, hmem, hneg⟩
    cases ps with
    | nil => simp at hmem
    | cons p rest =>
      have hmin : rest.foldl min p < 0 :=
        lt_of_le_of_lt (foldl_min_le hmem) hneg
      simp only [floatProbs, pyMin, Bind.bind, Except.bind]
      rw [if_pos hmin]
  · intro ps hlo hx
    rcases hx with ⟨x, hmem, hgt⟩
    cases ps with
    | nil => simp at hmem
    | cons p rest =>
      have hmin : ¬ (rest.foldl min p < 0) :=
        not_lt.mpr (hlo _ (foldl_min_mem rest p))
      have hmax : 1 < rest.foldl max p :=
        lt_of_lt_of_le hgt (le_foldl_max hmem)
      simp only [floatProbs, pyMin, pyMax, Bind.bind, Except.bind]
      rw [if_neg hmin, if_pos hmax]
  · intro ps l hl
    have hres : l = (ps.erase 0).erase 1 := by
      cases ps with
      | nil => simp [floatProbs, pyMin, Bind.bind, Except.bind] at hl
      | cons p rest =>
        simp only [floatProbs, pyMin, pyMax, Bind.bind, Except.bind] at hl
        by_cases h1 : rest.foldl min p < 0
        · rw [if_pos h1] at hl
          exact absurd hl (by simp)
        · rw [if_neg h1] at hl
          by_cases h2 : 1 < rest.foldl max p
          · rw [if_pos h2] at hl
            exact absurd hl (by simp)
          · rw [if_neg h2] at hl
            exact (Except.ok.inj hl).symm
    subst hres
    refine ⟨rfl, ?_, ?_⟩
    · intro hcnt hmem
      have h0 : (0 : ℚ) ∈ ps.erase 0 := List.mem_of_mem_erase hmem
      have := List.count_erase_self (0 : ℚ) ps
      have h1 : 0 < (ps.erase 0).count 0 := List.count_pos_iff.mpr h0
      omega
    · intro hcnt hmem
      have h0 : ((ps.erase 0).erase 1).count 1 = (ps.erase 0).count 1 - 1 :=
        List.count_erase_self _ _
      have h1 : (ps.erase 0).count 1 = ps.count 1 :=
        List.count_erase_of_ne (by norm_num) _
      have h2 : 0 < ((ps.erase 0).erase 1).count 1 :=
        List.count_pos_iff.mpr hmem
      omega

/-- Witness for C4: `K = 4` yields three probabilities; `[-1]` and `[0, 2]`
are rejected; the survivors of `[0, 1]` contain neither 0 nor 1. -/
theorem quantiles_probabilities_witness :
    (∃ l, intProbs 4 = .ok l ∧ (l.length : Int) = 3) ∧
    floatProbs [-1] = .error (.valueError
      "list[float] must not contain a value less than 0") ∧
    floatProbs [0, 2] = .error (.valueError
      "list[float] must not contain a value greater than 1") ∧
    (0 : ℚ) ∉ (([0, 1] : List ℚ).erase 0).erase 1 := by
  obtain ⟨l, hl, hlen, _⟩ := quantiles_probabilities.1 4 (by norm_num)
  refine ⟨⟨l, hl, by omega⟩, ?_, ?_, ?_⟩
  · exact quantiles_probabilities.2.1 [-1] ⟨-1, by decide, by decide⟩
  · exact quantiles_probabilities.2.2.1 [0, 2] (by decide) ⟨2, by decide, by decide⟩
  · exact (quantiles_probabilities.2.2.2 [0, 1] _
      (floatProbs_ok (by decide) (by decide) (by decide))).2.1 (by decide)

/-- Counterexample to C4 as stated: the list `[0, 0, 1]` passes validation
but only the *first* occurrence of `0.0` is discarded — the derived
probability list still contains `0`. -/
theorem quantiles_discard_cex :
    floatProbs [0, 0, 1] = .ok [0] ∧ (0 : ℚ) ∈ ([0] : List ℚ) := by
  constructor
  · have h := @floatProbs_ok [0, 0, 1] (by decide) (by decide) (by decide)
    rw [h]
    decide
  · decide

/-- C9. When a valid single-band float-list specification contains `0.0` or
`1.0`, `quantiles` mutates the caller's list object in place: after the
call the argument equals the original with one occurrence of `0.0` and one
of `1.0` removed, which differs from the list that was passed in. -/
theorem quantiles_mutates_argument (ps : List ℚ) (h0 : ps ≠ [])
    (h1 : ∀ x ∈ ps, 0 ≤ x ∧ x ≤ 1) (h2 : (0 : ℚ) ∈ ps ∨ (1 : ℚ) ∈ ps) :
    (quantilesFloatsCall 1 ps).2 = (ps.erase 0).erase 1 ∧
    (quantilesFloatsCall 1 ps).2 ≠ ps := by
  have hlen : ¬ (ps.length < 1) := by
    simpa [Nat.lt_one_iff] using (List.length_pos.mpr h0).ne'
  have hok := floatProbs_ok h0 (fun x hx => (h1 x hx).1) (fun x hx => (h1 x hx).2)
  have heq : (quantilesFloatsCall 1 ps).2 = (ps.erase 0).erase 1 := by
    simp [quantilesFloatsCall, hlen, hok]
  refine ⟨heq, ?_⟩
  rw [heq]
  intro hcontra
  have hshort : ((ps.erase 0).erase 1).length < ps.length := by
    rcases h2 with h | h
    · have e0 : (ps.erase 0).length = ps.length - 1 :=
        List.length_erase_of_mem h
      have e1 : ((ps.erase 0).erase 1).length ≤ (ps.erase 0).length :=
        List.length_erase_le _ _
      have hpos : 0 < ps.length := List.length_pos.mpr h0
      omega
    · have e0 : (ps.erase 0).count 1 = ps.count 1 :=
        List.count_erase_of_ne (by norm_num) _
      have hmem : (1 : ℚ) ∈ ps.erase 0 := by
        rw [← List.count_pos_iff, e0, List.count_pos_iff]
        exact h
      have e1 : ((ps.erase 0).erase 1).length = (ps.erase 0).length - 1 :=
        List.length_erase_of_mem hmem
      have e2 : (ps.erase 0).length ≤ ps.length := List.length_erase_le _ _
      have hpos : 0 < (ps.erase 0).length := List.length_pos.mpr
        (List.ne_nil_of_mem hmem)
      omega
  rw [hcontra] at hshort
  exact lt_irrefl _ hshort

/-- Witness for C9 at `[0, 1, 1]`: the caller's list is `[1]` afterwards. -/
theorem quantiles_mutates_argument_witness :
    (quantilesFloatsCall 1 [0, 1, 1]).2 = (([0, 1, 1] : List ℚ).erase 0).erase 1 ∧
    (quantilesFloatsCall 1 [0, 1, 1]).2 ≠ [0, 1, 1] :=
  quantiles_mutates_argument [0, 1, 1] (by decide) (by decide)
    (Or.inl (by decide))

/-- The `bands` element of a `map` argument tuple: a single band selector
or a list of selectors. -/
inductive BandsSpec where
  | one (b : Band)
  | many (bs : List Band)
deriving DecidableEq, Repr

/-- The `num_stratum` element of a `map` argument tuple. -/
inductive StratumSpec where
  | one (n : Int)
  | many (ns : List Int)
deriving DecidableEq, Repr

/-- One `(raster, bands, num_stratum)` tuple passed to `sgs.map`. -/
structure MapArg where
  raster : CppRaster
  bands : BandsSpec
  numStratum : StratumSpec
deriving DecidableEq, Repr

/-- The observable side effects of `map` that touch the filesystem: the
temp-directory creation (line 176) and the `map_cpp` call that produces the
output raster (line 181); both happen only after every check has passed. -/
inductive MapEvent where
  | mkdtemp
  | writeRaster
deriving DecidableEq, Repr

/-- map_stratifications.py lines 109-120 (`get_band_int`): resolve an
int/str band selector against a raster. -/
def getBandInt (raster : CppRaster) : Band → Except PyError Int
  | .idx i =>
    if 0 ≤ i ∧ i < (raster.bandCount : Int) then .ok i
    else .error (.valueError ("band " ++ toString i ++ " is out of range."))
  | .name s =>
    if s ∈ raster.bandNames then .ok (raster.bandNames.indexOf s : Int)
    else .error (.valueError ("band " ++ s ++ " is not a band within the raster."))

/-- map_stratifications.py lines 125-136: the list-shaped branch of the
per-argument loop, accumulating `raster_size_bytes` and setting
`large_raster` when a band is strictly larger than a gigabyte. -/
def mapBandLoop (raster : CppRaster) :
    List Band → List Int → Nat → Bool →
      Except PyError (List Int × List Int × Nat × Bool)
  | [], _, acc, lg => .ok ([], [], acc, lg)
  | _ :: _, [], acc, lg => .ok ([], [], acc, lg)
  | b :: bs, n :: ns, acc, lg => do
    let bi ← getBandInt raster b
    let bandSize := raster.height * raster.width
      * raster.bandTypeSizes.getD bi.toNat 0
    let lg2 := lg || decide (GIGABYTE < bandSize)
    let r ← mapBandLoop raster bs ns (acc + bandSize) lg2
    .ok (bi :: r.1, n :: r.2.1, r.2.2)

/-- map_stratifications.py lines 91-152: process one argument tuple. In the
scalar-band branch line 147 reads `large_raster == True` — a comparison,
not an assignment — so a large single band does *not* set the flag there;
the model reproduces that faithfully. -/
def mapProcessArg (h w : Nat) (arg : MapArg) (acc : Nat) (lg : Bool) :
    Except PyError (List Int × List Int × Nat × Bool) :=
  if arg.raster.height ≠ h then
    .error (.valueError "height is not the same across all rasters.")
  else if arg.raster.width ≠ w then
    .error (.valueError "width is not the same across all rasters.")
  else
    match arg.bands, arg.numStratum with
    | .many bs, .many ns =>
      if bs.length ≠ ns.length then
        .error (.valueError
          "if bands and num_stratum arguments are lists, they must have the same length.")
      else if arg.raster.bandCount < bs.length then
        .error (.valueError "bands list cannot have more bands than raster contains.")
      else mapBandLoop arg.raster bs ns acc lg
    | .many _, .one _ =>
      .error (.typeError
        "if one of bands and num_stratum is list, the other one must be a list of the same length.")
    | .one _, .many _ =>
      .error (.typeError
        "if one of bands and num_stratum is list, the other one must be a list of the same length.")
    | .one b, .one n => do
      let bi ← getBandInt arg.raster b
      let bandSize := arg.raster.height * arg.raster.width
        * arg.raster.bandTypeSizes.getD bi.toNat 0
      .ok ([bi], [n], acc + bandSize, lg)

/-- map_stratifications.py lines 91-152: the loop over all argument tuples,
collecting `band_lists` and `strata_lists`. -/
def mapArgsLoop (h w : Nat) :
    List MapArg → Nat → Bool →
      Except PyError (List (List Int) × List (List Int) × Nat × Bool)
  | [], acc, lg => .ok ([], [], acc, lg)
  | a :: rest, acc, lg => do
    let r ← mapProcessArg h w a acc lg
    let rs ← mapArgsLoop h w rest r.2.2.1 r.2.2.2
    .ok (r.1 :: rs.1, r.2.1 :: rs.2.1, rs.2.2)

/-- map_stratifications.py lines 160-163: `max_mapped_strata` starts at 1
and multiplies every per-band stratum count (Python integers are unbounded,
modelled as `Int`). -/
def mapOverflowProduct (strataLists : List (List Int)) : Int :=
  strataLists.foldl (fun acc l => l.foldl (fun a c => a * c) acc) 1

/-- map_stratifications.py lines 82-196: the full `map` pipeline. The first
component is the validation outcome (on success: band lists, strata lists
and the `large_raster` flag handed to `map_cpp`), the second the list of
filesystem events performed — error paths return before the temp directory
is created or any raster is written. -/
def sgsMapGo (a0 : MapArg) (rest : List MapArg) :
    Except PyError (List (List Int) × List (List Int) × Bool) × List MapEvent :=
  match mapArgsLoop a0.raster.height a0.raster.width (a0 :: rest) 0 false with
  | .error e => (.error e, [])
  | .ok (bls, sls, total, lg) =>
    let large := lg || decide (4 * GIGABYTE < total)
    if MAX_STRATA_VAL < mapOverflowProduct sls then
      (.error (.valueError
        "the mapped strata will cause an overflow error because the max strata number is too large."),
        [])
    else
      (.ok (bls, sls, large), [MapEvent.mkdtemp, MapEvent.writeRaster])

def sgsMapRun (args : List MapArg) :
    Except PyError (List (List Int) × List (List Int) × Bool) × List MapEvent :=
  match args with
  | [] => (.error (.indexError "tuple index out of range"), [])
  | a0 :: rest => sgsMapGo a0 rest

/-- C2 (amended). When the per-band stratum counts of a `map` call whose
argument tuples pass per-argument validation have a product exceeding the
32-bit signed maximum 2,147,483,647, the call raises a **ValueError** (its
message says the mapped strata would overflow — the exception class is not
Python's `OverflowError`), and it does so before any raster output is
written: no temp directory is created and no raster write occurs. -/
theorem map_overflow_guard (a0 : MapArg) (rest : List MapArg)
    (bls sls : List (List Int)) (total : Nat) (lg : Bool)
    (hloop : mapArgsLoop a0.raster.height a0.raster.width (a0 :: rest) 0 false
      = .ok (bls, sls, total, lg))
    (hprod : MAX_STRATA_VAL < mapOverflowProduct sls) :
    sgsMapRun (a0 :: rest)
      = (.error (.valueError
          "the mapped strata will cause an overflow error because the max strata number is too large."),
        []) := by
  show sgsMapGo a0 rest = _
  unfold sgsMapGo
  rw [hloop]
  simp [hprod]

/-- A 1×1 single-band stratification raster used in the C2 witness. -/
def c2rast : CppRaster := ⟨1, 1, ["strat"], [4]⟩

/-- The spec's overflow scenario: stratum counts 50,000 × 50,000 × 1,000. -/
def c2args : List MapArg :=
  [⟨c2rast, .one (.idx 0), .one 50000⟩,
   ⟨c2rast, .one (.idx 0), .one 50000⟩,
   ⟨c2rast, .one (.idx 0), .one 1000⟩]

/-- Witness for C2: combining stratum counts 50,000 × 50,000 × 1,000 fails
with the overflow ValueError before any filesystem event. -/
theorem map_overflow_guard_witness :
    sgsMapRun c2args
      = (.error (.valueError
          "the mapped strata will cause an overflow error because the max strata number is too large."),
        []) :=
  map_overflow_guard (c2args.get ⟨0, by decide⟩) [c2args.get ⟨1, by decide⟩, c2args.get ⟨2, by decide⟩]
    [[0], [0], [0]] [[50000], [50000], [1000]] 12 false (by decide) (by decide)

/-- Counterexample to C2 as stated: at the spec's own 50,000 × 50,000 ×
1,000 scenario the exception raised is a ValueError, not an OverflowError
(map_stratifications.py line 165 raises `ValueError`). -/
theorem map_overflow_guard_cex :
    (sgsMapRun c2args).1
      = .error (.valueError
        "the mapped strata will cause an overflow error because the max strata number is too large.")
    ∧ ¬ ∃ m, (sgsMapRun c2args).1 = .error (.overflowError m) := by
  constructor
  · decide
  · rintro ⟨m, hm⟩
    rw [show (sgsMapRun c2args).1
      = .error (.valueError
        "the mapped strata will cause an overflow error because the max strata number is too large.")
      from by decide] at hm
    exact PyError.noConfusion (Except.error.inj hm)

end SgsPy
